import Mathlib

/-!
Verification of the autoclass course-setup script (src/main.py, src/gutils.py).

Modelling conventions:
* Python `datetime` values are modelled as `Int` day counts (an absolute day
  number).  `timedelta(weeks = w, days = d)` is `7 * w + d` days.  Every claim
  under study is about whole-day arithmetic, so time-of-day is irrelevant.
* The external Google services (Classroom / Drive) are modelled by an
  environment `Env` of lookup functions returning `Option String`; `none`
  stands for "not found, or a transport error that the wrapper caught and
  turned into None" exactly as `gc_find_course` / `gd_find_file` /
  `gc_find_topic` do.
* A Python `assert` failure (fatal abort) is modelled as `Except.error` with a
  `Fatal` value naming the failed assertion; the creation calls themselves
  catch `HttpError` and continue, so once the asserts pass a request value is
  always produced.
* A request actually submitted to the service is reified as a `GReq` value
  holding the fields of the dict body built by `gc_create_material` /
  `gc_create_assignment`.
-/

/-- Model of the `TimeDelta` dataclass of main.py (weeks, days; both default 0). -/
structure TimeDelta where
  weeks : Int
  days : Int
deriving DecidableEq, Repr

/-- Model of the `WorkInfo` dataclass of main.py after `__post_init__`
normalization: dates are parsed, offsets are typed.  `kind` stays a string, as
in the Python source (a `Literal["material", "assignment"]`). -/
structure WorkInfo where
  kind : String
  publish_after : TimeDelta
  topic : String
  title : String
  publish_date : Option Int
  description : Option String
  files : Option (List String)
  due_after : Option TimeDelta
  due_date : Option Int
  max_points : Option Int
deriving DecidableEq, Repr

/-- `WorkInfo.get_due_date` (main.py lines 50-59): returns `None` unless the
kind is "assignment"; returns `None` when `due_after` is `None` (this check
comes BEFORE the `due_date` check in the source); otherwise prefers the
absolute `due_date`, else adds the offset to the current publish date. -/
def WorkInfo.get_due_date (w : WorkInfo) (curr_pub_date : Int) : Option Int :=
  if w.kind ≠ "assignment" then none
  else
    match w.due_after with
    | none => none
    | some ta =>
      match w.due_date with
      | some d => some d
      | none => some (curr_pub_date + (7 * ta.weeks + ta.days))

/-- `WorkInfo.get_publish_date` (main.py lines 61-67): the absolute
`publish_date` if set, else the previous publish date plus the offset. -/
def WorkInfo.get_publish_date (w : WorkInfo) (prev_pub_date : Int) : Int :=
  match w.publish_date with
  | some d => d
  | none => prev_pub_date + (7 * w.publish_after.weeks + w.publish_after.days)

/-- Raw (pre-normalization) date field: Python `datetime | str | None`. -/
inductive RawDate where
  | absent
  | date (d : Int)
  | str (s : String)
deriving DecidableEq, Repr

/-- Raw (pre-normalization) offset field: Python `TimeDelta | dict`.  A dict
carries optional `weeks` / `days` keys (missing keys default to 0, as in
`TimeDelta(**d)`). -/
inductive RawDelta where
  | delta (t : TimeDelta)
  | dict (weeks : Option Int) (days : Option Int)
deriving DecidableEq, Repr

/-- Raw `WorkInfo` constructor input, before `__post_init__` runs: dates may
still be ISO strings and offsets may still be dicts. -/
structure RawWorkInfo where
  kind : String
  publish_after : RawDelta
  topic : String
  title : String
  publish_date : RawDate
  description : Option String
  files : Option (List String)
  due_after : Option RawDelta
  due_date : RawDate
  max_points : Option Int
deriving DecidableEq, Repr

/-- Normalize one raw date field.  `p` models `datetime.fromisoformat`
(returning `none` on a `ValueError`).  The result is `none` when parsing
fails, otherwise the parsed optional date. -/
def normDate (p : String → Option Int) : RawDate → Option (Option Int)
  | RawDate.absent => some none
  | RawDate.date d => some (some d)
  | RawDate.str s => (p s).map some

/-- Normalize one raw offset field, as `TimeDelta(**d)` does for dicts. -/
def normDelta : RawDelta → TimeDelta
  | RawDelta.delta t => t
  | RawDelta.dict w d => ⟨w.getD 0, d.getD 0⟩

/-- Model of `WorkInfo.__post_init__` (main.py lines 33-48): asserts the kind
is "material" or "assignment", parses string dates, and coerces dict offsets;
`none` models an `AssertionError`/`ValueError` escaping the constructor. -/
def RawWorkInfo.post_init (r : RawWorkInfo) (p : String → Option Int) :
    Option WorkInfo :=
  if r.kind = "material" ∨ r.kind = "assignment" then
    match normDate p r.publish_date, normDate p r.due_date with
    | some pd, some dd =>
      some ⟨r.kind, normDelta r.publish_after, r.topic, r.title, pd,
        r.description, r.files, r.due_after.map normDelta, dd, r.max_points⟩
    | some _, none => none
    | none, _ => none
  else none

/-- View an optional parsed date back as a raw field (it is no longer a
string). -/
def dateToRaw : Option Int → RawDate
  | none => RawDate.absent
  | some d => RawDate.date d

/-- A normalized `WorkInfo` seen again as constructor input: in Python,
`__post_init__` mutates the dataclass fields in place, so re-running
normalization operates on exactly these already-typed fields. -/
def WorkInfo.toRaw (w : WorkInfo) : RawWorkInfo :=
  ⟨w.kind, RawDelta.delta w.publish_after, w.topic, w.title,
    dateToRaw w.publish_date, w.description, w.files,
    w.due_after.map RawDelta.delta, dateToRaw w.due_date, w.max_points⟩

/-- The external directory services (gutils.py): name-to-identifier lookups.
`find_course` models `gc_find_course`, `find_file` models `gd_find_file`,
`find_topic` models the remote scan inside `gc_find_topic`.  `none` covers
both "no match" and "HttpError caught, logged, None returned". -/
structure Env where
  find_course : String → Option String
  find_file : String → Option String
  find_topic : String → String → Option String

/-- `gc_find_topic` (gutils.py lines 116-128): short-circuits to `None` on a
falsy name (`None` or the empty string) without a remote call, otherwise scans
the course topics. -/
def gc_find_topic (env : Env) (course_id : String) (name : Option String) :
    Option String :=
  match name with
  | none => none
  | some n => if n = "" then none else env.find_topic course_id n

/-- Python truthiness of an `Optional[list]`: `None` and `[]` are falsy
(the `assert work.files` checks in `setup_course`). -/
def truthyList : Option (List String) → Bool
  | none => false
  | some l => l ≠ []

/-- The per-item file-resolution loop of `setup_course` (main.py lines
101-103 and 122-125): each name is looked up with `gd_find_file` and the id is
appended only when truthy (`if f_id:`), so unresolved names are skipped. -/
def resolveFiles (env : Env) (files : List String) : List String :=
  files.filterMap fun file =>
    match env.find_file file with
    | some f_id => if f_id = "" then none else some f_id
    | none => none

/-- One fatal abort (a failed Python `assert`, or the `ValueError` of the
executor's catch-all match arm), each tagged with the data in its message. -/
inductive Fatal where
  | no_files (title : String)
  | no_due_date (title : String)
  | no_submit_dir
  | no_topic
  | unknown_kind (kind : String)
deriving DecidableEq, Repr

/-- A creation request as actually submitted to the service: the fields of the
body dict built by `gc_create_material` (no due-date component at all) and by
`gc_create_assignment` (due date, max points, mandatory topic id). -/
inductive GReq where
  | material (course_id : String) (title : String) (description : Option String)
      (drive_file_ids : List String) (scheduled_time : Int)
      (topic_id : Option String)
  | assignment (course_id : String) (title : String) (description : Option String)
      (drive_file_ids : List String) (due_date : Int) (scheduled_time : Int)
      (max_points : Option Int) (topic_id : String)
deriving DecidableEq, Repr

/-- The scheduledTime field of a request. -/
def GReq.sched : GReq → Int
  | GReq.material _ _ _ _ t _ => t
  | GReq.assignment _ _ _ _ _ t _ _ => t

/-- The attached drive-file identifiers of a request. -/
def GReq.file_ids : GReq → List String
  | GReq.material _ _ _ ids _ _ => ids
  | GReq.assignment _ _ _ ids _ _ _ _ => ids

/-- The topicId field of a request (always present on an assignment). -/
def GReq.topicField : GReq → Option String
  | GReq.material _ _ _ _ _ t => t
  | GReq.assignment _ _ _ _ _ _ _ t => some t

/-- The maxPoints field: a material body has no such key at all, an assignment
body carries exactly the passed value (possibly null). -/
def GReq.maxPointsField : GReq → Option Int
  | GReq.material _ _ _ _ _ _ => none
  | GReq.assignment _ _ _ _ _ _ mp _ => mp

/-- Whether the request body has dueDate/dueTime components: only the
assignment shape does (gutils.py lines 191-200); the material dict has none. -/
def GReq.carriesDueDate : GReq → Bool
  | GReq.material _ _ _ _ _ _ => false
  | GReq.assignment _ _ _ _ _ _ _ _ => true

/-- `gc_create_material` (gutils.py lines 132-161): builds the material body;
the topicId is the (possibly absent) result of `gc_find_topic`, with no
assertion; the create call catches `HttpError`, so a request value is always
produced. -/
def gc_create_material (env : Env) (course_id : String) (title : String)
    (scheduled_time : Int) (drive_file_ids : List String)
    (topic : Option String) (description : Option String) : GReq :=
  GReq.material course_id title description drive_file_ids scheduled_time
    (gc_find_topic env course_id topic)

/-- The default value of the `max_points` parameter in `gc_create_assignment`'s
signature (gutils.py line 173).  The executor never relies on it: main.py line
114 always passes `work.max_points` explicitly. -/
def gc_create_assignment_max_points_default : Option Int := some 100

/-- `gc_create_assignment` (gutils.py lines 165-216): asserts a resolvable
submission directory named "TestDir", then asserts a resolvable topic id, then
builds the coursework body (materials default to the empty list when the
passed list is falsy). -/
def gc_create_assignment (env : Env) (course_id : String) (title : String)
    (scheduled_time : Int) (due_date : Int)
    (mat_drive_file_ids : Option (List String)) (topic : Option String)
    (description : Option String) (max_points : Option Int) :
    Except Fatal GReq :=
  match env.find_file "TestDir" with
  | none => Except.error Fatal.no_submit_dir
  | some _ =>
    match gc_find_topic env course_id topic with
    | none => Except.error Fatal.no_topic
    | some topic_id =>
      Except.ok (GReq.assignment course_id title description
        (mat_drive_file_ids.getD []) due_date scheduled_time max_points topic_id)

/-- The body of `setup_course`'s per-item match (main.py lines 93-136), given
the already-resolved publish date of the item.  Assignment arm: compute the
due date, assert the file list is truthy, resolve files, assert the due date
is not None, call `gc_create_assignment` passing `work.max_points` explicitly.
Material arm: assert the file list is truthy, resolve files, call
`gc_create_material`.  Any other kind raises `ValueError`. -/
def process_work (env : Env) (course_id : String) (pub_date : Int)
    (work : WorkInfo) : Except Fatal GReq :=
  if work.kind = "assignment" then
    let due_date := work.get_due_date pub_date
    if truthyList work.files then
      let mat_drive_file_ids := resolveFiles env (work.files.getD [])
      match due_date with
      | none => Except.error (Fatal.no_due_date work.title)
      | some dd =>
        gc_create_assignment env course_id work.title pub_date dd
          (some mat_drive_file_ids) (some work.topic) work.description
          work.max_points
    else Except.error (Fatal.no_files work.title)
  else if work.kind = "material" then
    if truthyList work.files then
      let drive_file_ids := resolveFiles env (work.files.getD [])
      Except.ok (gc_create_material env course_id work.title pub_date
        drive_file_ids (some work.topic) work.description)
    else Except.error (Fatal.no_files work.title)
  else Except.error (Fatal.unknown_kind work.kind)

/-- `CourseInfo.setup_course` (main.py lines 89-138): a left-to-right walk over
the work items, threading `prev_pub_date` (initialised to the start date by
the caller); each iteration resolves the publish date, processes the item, and
threads the resolved PUBLISH date (line 138) to the next iteration.  A fatal
assert aborts the run; the issued requests are collected in order. -/
def setup_course (env : Env) (course_id : String) (prev_pub_date : Int) :
    List WorkInfo → Except Fatal (List GReq)
  | [] => Except.ok []
  | work :: rest =>
    match process_work env course_id (work.get_publish_date prev_pub_date) work with
    | Except.error e => Except.error e
    | Except.ok req =>
      match setup_course env course_id (work.get_publish_date prev_pub_date) rest with
      | Except.error e => Except.error e
      | Except.ok reqs => Except.ok (req :: reqs)

/-- The chain of resolved publish dates produced by the executor's fold: item
by item, each resolved with `get_publish_date` against the previous resolved
publish date, starting from the plan's start date. -/
def publishChain (prev : Int) : List WorkInfo → List Int
  | [] => []
  | w :: ws => w.get_publish_date prev :: publishChain (w.get_publish_date prev) ws

/-- The parsed top-level plan document (main.py `from_json`): course name,
start date as ISO text, and the raw item records. -/
structure PlanJson where
  name : String
  start_date : String
  items : List RawWorkInfo

/-- Fatal load-time errors of `CourseInfo.from_json` / `CourseInfo.__init__`. -/
inductive LoadError where
  | bad_start_date
  | past_start_date
  | course_not_found (name : String)
  | bad_item
deriving DecidableEq, Repr

/-- A remote directory-service call issued during plan loading.  The only
remote call `from_json` can make is the course lookup inside
`CourseInfo.__init__` (main.py line 72). -/
inductive RemoteCall where
  | find_course (name : String)
deriving DecidableEq, Repr

/-- The loaded course: resolved course id, start date, normalized items. -/
structure CourseInfo where
  course_id : String
  start_date : Int
  work_items : List WorkInfo
deriving DecidableEq, Repr

/-- `CourseInfo.from_json` (main.py lines 78-87) together with
`CourseInfo.__init__` (lines 71-76), with the trace of remote calls made:
parse the start date, assert it is strictly in the future (line 84), only then
construct `CourseInfo` (which performs the course lookup and asserts it
resolved), then normalize each item. -/
def CourseInfo.from_json (env : Env) (p : String → Option Int) (now : Int)
    (plan : PlanJson) : Except LoadError CourseInfo × List RemoteCall :=
  match p plan.start_date with
  | none => (Except.error LoadError.bad_start_date, [])
  | some start_date =>
    if start_date > now then
      match env.find_course plan.name with
      | none => (Except.error (LoadError.course_not_found plan.name),
          [RemoteCall.find_course plan.name])
      | some c_id =>
        match plan.items.mapM (fun r => r.post_init p) with
        | none => (Except.error LoadError.bad_item,
            [RemoteCall.find_course plan.name])
        | some items => (Except.ok ⟨c_id, start_date, items⟩,
            [RemoteCall.find_course plan.name])
    else (Except.error LoadError.past_start_date, [])

/-- Day number of a 2025 calendar date (2025 is not a leap year), for stating
the concrete chain-fold example with real dates. -/
def iso2025 (m d : Nat) : Int :=
  (([31, 28, 31, 30, 31, 30, 31, 31, 30, 31, 30, 31] : List Int).take (m - 1)).foldl
    (fun a b => a + b) 0 + (d : Int)

/-! ## C1: due-date resolution and the precedence of absolute due dates -/

/-- Concrete assignment with an absolute due date but no due offset. -/
def wC1cex : WorkInfo :=
  ⟨"assignment", ⟨0, 0⟩, "t", "hw1", none, none, some ["A"], none, some 10, none⟩

/-- C1 counterexample: an Assignment with `due_date` set but `due_after`
unset resolves to no due date at all — `get_due_date` returns `None` because
the `due_after is None` check precedes the `due_date` check, contradicting the
claim that a set `due_date` is always returned. -/
theorem c1_counterexample :
    wC1cex.kind = "assignment" ∧ wC1cex.due_date = some 10 ∧
      wC1cex.get_due_date 0 = none :=
  ⟨rfl, rfl, rfl⟩

/-- C1 (amended): for an Assignment, due-date resolution yields a date exactly
when `due_after` is set; in that case the absolute `due_date` is preferred,
else the publish date plus the offset.  When `due_after` is unset the result
is absent even if `due_date` is set. -/
theorem c1_due_requires_offset_amended (w : WorkInfo) (P : Int)
    (h : w.kind = "assignment") :
    w.get_due_date P =
      w.due_after.map (fun ta => w.due_date.getD (P + (7 * ta.weeks + ta.days))) := by
  unfold WorkInfo.get_due_date
  rw [if_neg (by simp [h])]
  cases w.due_after with
  | none => rfl
  | some ta =>
    cases w.due_date with
    | none => rfl
    | some d => rfl

/-- Concrete assignment with a due offset of 1 week 2 days. -/
def wC1wit : WorkInfo :=
  ⟨"assignment", ⟨0, 0⟩, "t", "hw2", none, none, some ["A"], some ⟨1, 2⟩, none, none⟩

/-- C1 witness: the amended statement evaluated on a concrete assignment. -/
theorem c1_witness :
    wC1wit.kind = "assignment" ∧
      wC1wit.get_due_date 5 =
        wC1wit.due_after.map (fun ta => wC1wit.due_date.getD (5 + (7 * ta.weeks + ta.days))) :=
  ⟨rfl, c1_due_requires_offset_amended wC1wit 5 rfl⟩

/-! ## C4: Material items never get a due date -/

/-- Concrete material item with a due offset of (0, 5) set. -/
def wC4ex : WorkInfo :=
  ⟨"material", ⟨0, 0⟩, "t", "m1", none, none, some ["A"], some ⟨0, 5⟩, none, none⟩

/-- C4: for Material items due-date resolution always returns absent (whatever
due fields are set), the issued creation request is material-shaped and so
carries no due-date component, and the concrete item with due offset (0, 5)
resolves to absent. -/
theorem c4_material_never_due :
    (∀ (w : WorkInfo) (P : Int), w.kind = "material" → w.get_due_date P = none)
    ∧ (∀ (env : Env) (cid : String) (pub : Int) (w : WorkInfo) (req : GReq),
        w.kind = "material" → process_work env cid pub w = Except.ok req →
        req.carriesDueDate = false)
    ∧ wC4ex.get_due_date 0 = none := by
  refine ⟨?_, ?_, rfl⟩
  · intro w P h
    unfold WorkInfo.get_due_date
    rw [if_pos (by simp [h])]
  · intro env cid pub w req h hp
    unfold process_work at hp
    rw [h] at hp
    rw [if_neg (by decide)] at hp
    rw [if_pos (by decide)] at hp
    by_cases ht : truthyList w.files = true
    · rw [if_pos ht] at hp
      simp only [Except.ok.injEq] at hp
      subst hp
      rfl
    · rw [if_neg ht] at hp
      exact (Except.noConfusion hp)

/-- Environment for the C4 witness: every file and topic resolves. -/
def envC4 : Env := ⟨fun _ => none, fun _ => some "fid", fun _ _ => some "tid"⟩

/-- The material request issued for `wC4ex` under `envC4`. -/
def reqC4 : GReq := GReq.material "c" "m1" none ["fid"] 0 (some "tid")

/-- C4 witness: the theorem applied to a concrete material item. -/
theorem c4_witness :
    wC4ex.get_due_date 3 = none ∧
      process_work envC4 "c" 0 wC4ex = Except.ok reqC4 ∧
      reqC4.carriesDueDate = false :=
  ⟨c4_material_never_due.1 wC4ex 3 rfl, rfl,
   c4_material_never_due.2.1 envC4 "c" 0 wC4ex reqC4 rfl rfl⟩

/-! ## C10: empty or absent file list is a fatal execution-time assertion -/

/-- A falsy files field (None or empty list) fails the `assert work.files`
check in both recognized branches of the executor. -/
theorem process_work_files_falsy (env : Env) (cid : String) (pub : Int)
    (w : WorkInfo) (hk : w.kind = "assignment" ∨ w.kind = "material")
    (ht : truthyList w.files = false) :
    process_work env cid pub w = Except.error (Fatal.no_files w.title) := by
  unfold process_work
  rcases hk with h | h <;> rw [h] <;> simp [ht]

/-- C10: an item of either recognized kind whose files field is `None` or the
empty list makes the executor fail the `assert work.files` check, so the run
aborts with that assertion and no creation request is issued for the item. -/
theorem c10_empty_files_fatal (env : Env) (cid : String) (pub : Int)
    (w : WorkInfo) (hk : w.kind = "assignment" ∨ w.kind = "material")
    (hf : w.files = none ∨ w.files = some []) :
    process_work env cid pub w = Except.error (Fatal.no_files w.title) := by
  have ht : truthyList w.files = false := by
    rcases hf with h | h <;> rw [h] <;> rfl
  exact process_work_files_falsy env cid pub w hk ht

/-- Concrete material item with no files field. -/
def wC10 : WorkInfo := ⟨"material", ⟨0, 0⟩, "t", "m2", none, none, none, none, none, none⟩

/-- Environment for the C10 witness. -/
def envC10 : Env := ⟨fun _ => none, fun _ => none, fun _ _ => none⟩

/-- C10 witness: the theorem applied to a concrete fileless item. -/
theorem c10_witness :
    process_work envC10 "c" 0 wC10 = Except.error (Fatal.no_files "m2") :=
  c10_empty_files_fatal envC10 "c" 0 wC10 (Or.inr rfl) (Or.inl rfl)

/-! ## C7: past start date fails at load time before any remote call -/

/-- C7: when the parsed start date is not strictly after `now`, `from_json`
fails with the past-start-date configuration error and the remote-call trace
is empty — in particular the course lookup has not run. -/
theorem c7_past_start_date_no_remote_call (env : Env) (p : String → Option Int)
    (now : Int) (plan : PlanJson) (s : Int)
    (hp : p plan.start_date = some s) (hle : s ≤ now) :
    CourseInfo.from_json env p now plan =
      (Except.error LoadError.past_start_date, []) := by
  unfold CourseInfo.from_json
  rw [hp]
  show (if s > now then _ else (Except.error LoadError.past_start_date, [])) = _
  rw [if_neg (by omega)]

/-- Concrete plan with a past start date. -/
def planC7 : PlanJson := ⟨"course", "2020-01-01", []⟩

/-- Date parser for the C7 witness. -/
def pC7 : String → Option Int := fun s => if s = "2020-01-01" then some 0 else none

/-- Environment for the C7 witness (the course would resolve if asked). -/
def envC7 : Env := ⟨fun _ => some "cid", fun _ => none, fun _ _ => none⟩

/-- C7 witness: loading a concrete past-dated plan fails without remote calls. -/
theorem c7_witness :
    CourseInfo.from_json envC7 pC7 100 planC7 =
      (Except.error LoadError.past_start_date, []) :=
  c7_past_start_date_no_remote_call envC7 pC7 100 planC7 0 rfl (by decide)

/-! ## Inversion lemmas for the per-item executor step -/

/-- Inversion: a successful assignment step means the due date and topic
resolved, and the issued request is the assignment body built from the item's
fields (files resolved by the skip-on-failure loop, `work.max_points` passed
through verbatim, scheduled at the resolved publish date). -/
theorem process_work_assignment_ok (env : Env) (cid : String) (pub : Int)
    (w : WorkInfo) (req : GReq) (hk : w.kind = "assignment")
    (hp : process_work env cid pub w = Except.ok req) :
    ∃ dd tid, w.get_due_date pub = some dd ∧
      gc_find_topic env cid (some w.topic) = some tid ∧
      req = GReq.assignment cid w.title w.description
        (resolveFiles env (w.files.getD [])) dd pub w.max_points tid := by
  unfold process_work at hp
  rw [hk] at hp
  rw [if_pos (by decide)] at hp
  by_cases ht : truthyList w.files = true
  · rw [if_pos ht] at hp
    cases hd : w.get_due_date pub with
    | none =>
      simp only [hd] at hp
      exact (Except.noConfusion hp)
    | some dd =>
      simp only [hd, gc_create_assignment] at hp
      cases hs : env.find_file "TestDir" with
      | none =>
        simp only [hs] at hp
        exact (Except.noConfusion hp)
      | some sid =>
        simp only [hs] at hp
        cases htp : gc_find_topic env cid (some w.topic) with
        | none =>
          simp only [htp] at hp
          exact (Except.noConfusion hp)
        | some tid =>
          simp only [htp, Except.ok.injEq, Option.getD_some] at hp
          exact ⟨dd, tid, rfl, rfl, hp.symm⟩
  · rw [if_neg ht] at hp
    exact (Except.noConfusion hp)

/-- Inversion: a successful material step means the file list was truthy and
the issued request is the material body (topic possibly absent, files resolved
by the skip-on-failure loop, scheduled at the resolved publish date). -/
theorem process_work_material_ok (env : Env) (cid : String) (pub : Int)
    (w : WorkInfo) (req : GReq) (hk : w.kind = "material")
    (hp : process_work env cid pub w = Except.ok req) :
    truthyList w.files = true ∧
      req = GReq.material cid w.title w.description
        (resolveFiles env (w.files.getD [])) pub
        (gc_find_topic env cid (some w.topic)) := by
  unfold process_work at hp
  rw [hk] at hp
  rw [if_neg (by decide)] at hp
  rw [if_pos (by decide)] at hp
  by_cases ht : truthyList w.files = true
  · rw [if_pos ht] at hp
    simp only [Except.ok.injEq] at hp
    refine ⟨ht, ?_⟩
    rw [← hp]
    rfl
  · rw [if_neg ht] at hp
    exact (Except.noConfusion hp)

/-- Every successfully issued request is scheduled at the resolved publish
date of its item. -/
theorem process_work_sched (env : Env) (cid : String) (pub : Int)
    (w : WorkInfo) (req : GReq)
    (hp : process_work env cid pub w = Except.ok req) : req.sched = pub := by
  by_cases hk : w.kind = "assignment"
  · obtain ⟨dd, tid, _, _, hr⟩ := process_work_assignment_ok env cid pub w req hk hp
    rw [hr]
    rfl
  · by_cases hm : w.kind = "material"
    · obtain ⟨_, hr⟩ := process_work_material_ok env cid pub w req hm hp
      rw [hr]
      rfl
    · exfalso
      unfold process_work at hp
      rw [if_neg hk, if_neg hm] at hp
      exact (Except.noConfusion hp)

/-! ## C2: the publish-date chain fold -/

/-- A successful run issues its requests scheduled exactly along the chain of
resolved publish dates threaded from the start date. -/
theorem setup_course_scheds (env : Env) (cid : String) :
    ∀ (ws : List WorkInfo) (s : Int) (reqs : List GReq),
      setup_course env cid s ws = Except.ok reqs →
      reqs.map GReq.sched = publishChain s ws := by
  intro ws
  induction ws with
  | nil =>
    intro s reqs h
    unfold setup_course at h
    injection h with h
    subst h
    rfl
  | cons w rest ih =>
    intro s reqs h
    unfold setup_course at h
    cases hp : process_work env cid (w.get_publish_date s) w with
    | error e =>
      simp only [hp] at h
      exact (Except.noConfusion h)
    | ok req =>
      simp only [hp] at h
      cases hr : setup_course env cid (w.get_publish_date s) rest with
      | error e =>
        simp only [hr] at h
        exact (Except.noConfusion h)
      | ok rs =>
        simp only [hr] at h
        injection h with h
        subst h
        unfold publishChain
        rw [List.map_cons, ih _ _ hr,
          process_work_sched env cid (w.get_publish_date s) w req hp]

/-- The chain is the fold the spec describes: each element is
`get_publish_date` of its item applied to the previous element, the previous
element of the first item being the start date. -/
theorem publishChain_zip : ∀ (s : Int) (ws : List WorkInfo),
    publishChain s ws =
      List.zipWith WorkInfo.get_publish_date ws (s :: publishChain s ws) := by
  intro s ws
  induction ws generalizing s with
  | nil => rfl
  | cons w rest ih =>
    unfold publishChain
    rw [List.zipWith_cons_cons, ← ih]

/-- The three work items of the spec's concrete chain-fold example, with
publish offsets (0,3), (1,0), (0,0). -/
def itemsC2 : List WorkInfo :=
  [⟨"material", ⟨0, 3⟩, "t", "w1", none, none, some ["A"], none, none, none⟩,
   ⟨"material", ⟨1, 0⟩, "t", "w2", none, none, some ["A"], none, none, none⟩,
   ⟨"material", ⟨0, 0⟩, "t", "w3", none, none, some ["A"], none, none, none⟩]

/-- C2: resolved publish dates form a fold.  (1) A successful run schedules
its requests exactly along `publishChain`, whose threaded value is the
resolved publish date (never the due date).  (2) `publishChain` is the fold of
`get_publish_date` (absolute date if set, else previous date plus
7*weeks + days) with the start date seeding the first item.  (3) The concrete
example: offsets (0,3), (1,0), (0,0) from 2025-06-01 resolve to 2025-06-04,
2025-06-11, 2025-06-11. -/
theorem c2_publish_chain_fold :
    (∀ (env : Env) (cid : String) (s : Int) (ws : List WorkInfo)
        (reqs : List GReq),
      setup_course env cid s ws = Except.ok reqs →
      reqs.map GReq.sched = publishChain s ws)
    ∧ (∀ (s : Int) (ws : List WorkInfo),
      publishChain s ws =
        List.zipWith WorkInfo.get_publish_date ws (s :: publishChain s ws))
    ∧ publishChain (iso2025 6 1) itemsC2 =
        [iso2025 6 4, iso2025 6 11, iso2025 6 11] :=
  ⟨fun env cid s ws reqs h => setup_course_scheds env cid ws s reqs h,
   publishChain_zip, by decide⟩

/-- Environment for the C2 witness: every file and topic resolves. -/
def envC2 : Env := ⟨fun _ => none, fun _ => some "fid", fun _ _ => some "tid"⟩

/-- The requests issued for `itemsC2` under `envC2`. -/
def reqsC2 : List GReq :=
  [GReq.material "c" "w1" none ["fid"] (iso2025 6 4) (some "tid"),
   GReq.material "c" "w2" none ["fid"] (iso2025 6 11) (some "tid"),
   GReq.material "c" "w3" none ["fid"] (iso2025 6 11) (some "tid")]

/-- C2 witness: the fold theorem applied to the concrete three-item run. -/
theorem c2_witness :
    setup_course envC2 "c" (iso2025 6 1) itemsC2 = Except.ok reqsC2 ∧
      reqsC2.map GReq.sched = publishChain (iso2025 6 1) itemsC2 :=
  ⟨rfl, c2_publish_chain_fold.1 envC2 "c" (iso2025 6 1) itemsC2 reqsC2 rfl⟩

/-! ## C3: max points of an assignment request -/

/-- Environment for C3: every file and topic resolves. -/
def envC3 : Env := ⟨fun _ => none, fun _ => some "fid", fun _ _ => some "tid"⟩

/-- Concrete assignment whose max-points field is not given. -/
def wC3 : WorkInfo :=
  ⟨"assignment", ⟨0, 0⟩, "t", "hw3", none, none, some ["A"], some ⟨0, 3⟩, none, none⟩

/-- The request issued for `wC3` under `envC3`: its maxPoints is null. -/
def reqC3 : GReq := GReq.assignment "c" "hw3" none ["fid"] 3 0 none "tid"

/-- C3 counterexample: an assignment item with no max-points field produces a
creation request whose maxPoints is absent (null), not the documented default
of 100 — `setup_course` passes `work.max_points` explicitly, bypassing the
default in `gc_create_assignment`'s signature. -/
theorem c3_counterexample :
    wC3.max_points = none ∧
      process_work envC3 "c" 0 wC3 = Except.ok reqC3 ∧
      reqC3.maxPointsField ≠ gc_create_assignment_max_points_default :=
  ⟨rfl, rfl, by decide⟩

/-- C3 (amended): for an Assignment item with no max-points field, the issued
request carries an absent maxPoints value; the executor forwards the item's
field verbatim, so the gateway default of 100 never applies. -/
theorem c3_max_points_passthrough_amended (env : Env) (cid : String) (pub : Int)
    (w : WorkInfo) (req : GReq) (hk : w.kind = "assignment")
    (hm : w.max_points = none)
    (hp : process_work env cid pub w = Except.ok req) :
    req.maxPointsField = none := by
  obtain ⟨dd, tid, _, _, hr⟩ := process_work_assignment_ok env cid pub w req hk hp
  rw [hr]
  exact hm

/-- C3 witness: the amended statement evaluated on the concrete assignment. -/
theorem c3_witness : reqC3.maxPointsField = none :=
  c3_max_points_passthrough_amended envC3 "c" 0 wC3 reqC3 rfl rfl rfl

/-! ## C5: missing due fields pass parsing, fail fatally at execution -/

/-- An assignment item with no due offset makes the executor fail the
due-date assertion (main.py line 105), provided the earlier files assertion
passed. -/
theorem process_work_due_absent (env : Env) (cid : String) (pub : Int)
    (w : WorkInfo) (hk : w.kind = "assignment") (hda : w.due_after = none)
    (ht : truthyList w.files = true) :
    process_work env cid pub w = Except.error (Fatal.no_due_date w.title) := by
  have hd : w.get_due_date pub = none := by
    unfold WorkInfo.get_due_date
    rw [if_neg (by simp [hk]), hda]
  unfold process_work
  rw [hk, if_pos (by decide), if_pos ht, hd]

/-- C5: an Assignment raw item with neither a due date nor a due offset
normalizes successfully (given its publish date parses), yet executing the
resulting item is fatal; when the files assertion passes, the fatal error is
precisely the missing-due-date assertion. -/
theorem c5_missing_due_fatal_at_execution (p : String → Option Int)
    (r : RawWorkInfo) (pd : Option Int) (env : Env) (cid : String) (pub : Int)
    (hk : r.kind = "assignment") (hdd : r.due_date = RawDate.absent)
    (hda : r.due_after = none) (hpd : normDate p r.publish_date = some pd) :
    ∃ w : WorkInfo, r.post_init p = some w ∧
      ∃ e : Fatal, process_work env cid pub w = Except.error e ∧
        (truthyList w.files = true → e = Fatal.no_due_date w.title) := by
  refine ⟨⟨r.kind, normDelta r.publish_after, r.topic, r.title, pd, r.description,
    r.files, none, none, r.max_points⟩, ?_, ?_⟩
  · unfold RawWorkInfo.post_init
    rw [if_pos (Or.inr hk), hdd, hda, hpd]
    rfl
  · by_cases ht : truthyList r.files = true
    · exact ⟨Fatal.no_due_date r.title,
        process_work_due_absent env cid pub _ hk rfl ht, fun _ => rfl⟩
    · refine ⟨Fatal.no_files r.title,
        process_work_files_falsy env cid pub _ (Or.inl hk) (by simpa using ht), ?_⟩
      intro hcon
      exact absurd hcon ht

/-- Parser for the C5 witness (never called: no date field is a string). -/
def pC5 : String → Option Int := fun _ => none

/-- Concrete raw assignment with no due date and no due offset. -/
def rC5 : RawWorkInfo :=
  ⟨"assignment", RawDelta.delta ⟨0, 1⟩, "t", "hw5", RawDate.absent, none,
    some ["A"], none, RawDate.absent, none⟩

/-- Environment for the C5 witness. -/
def envC5 : Env := ⟨fun _ => none, fun _ => none, fun _ _ => none⟩

/-- C5 witness: the theorem applied to the concrete raw assignment. -/
theorem c5_witness :
    ∃ w : WorkInfo, rC5.post_init pC5 = some w ∧
      ∃ e : Fatal, process_work envC5 "c" 0 w = Except.error e ∧
        (truthyList w.files = true → e = Fatal.no_due_date w.title) :=
  c5_missing_due_fatal_at_execution pC5 rC5 none envC5 "c" 0 rfl rfl rfl rfl

/-! ## C6: unresolved files are skipped, the request carries the subset -/

/-- Environment for C6: "A" and "B" resolve, "missing" does not. -/
def envC6 : Env :=
  ⟨fun _ => none,
   fun f => if f = "A" then some "idA" else if f = "B" then some "idB" else none,
   fun _ _ => some "tid"⟩

/-- Concrete material item listing one unresolvable file. -/
def wC6 : WorkInfo :=
  ⟨"material", ⟨0, 0⟩, "t", "m6", none, none, some ["A", "B", "missing"],
    none, none, none⟩

/-- The request issued for `wC6` under `envC6`: exactly the two resolved ids. -/
def reqC6 : GReq := GReq.material "c" "m6" none ["idA", "idB"] 0 (some "tid")

/-- C6: every successfully issued request carries exactly the identifiers of
the listed file names that resolved (the skip-on-failure loop), and on the
concrete item with files A, B, missing the run continues and the request
carries exactly 2 identifiers. -/
theorem c6_partial_file_resolution :
    (∀ (env : Env) (cid : String) (pub : Int) (w : WorkInfo) (fs : List String)
        (req : GReq), w.files = some fs →
      process_work env cid pub w = Except.ok req →
      req.file_ids = resolveFiles env fs)
    ∧ (process_work envC6 "c" 0 wC6 = Except.ok reqC6 ∧
        reqC6.file_ids.length = 2) := by
  constructor
  · intro env cid pub w fs req hf hp
    by_cases hk : w.kind = "assignment"
    · obtain ⟨dd, tid, _, _, hr⟩ := process_work_assignment_ok env cid pub w req hk hp
      rw [hr, hf]
      rfl
    · by_cases hm : w.kind = "material"
      · obtain ⟨_, hr⟩ := process_work_material_ok env cid pub w req hm hp
        rw [hr, hf]
        rfl
      · exfalso
        unfold process_work at hp
        rw [if_neg hk, if_neg hm] at hp
        exact (Except.noConfusion hp)
  · exact ⟨rfl, rfl⟩

/-- C6 witness: the general statement evaluated on the concrete partial
resolution. -/
theorem c6_witness : reqC6.file_ids = resolveFiles envC6 ["A", "B", "missing"] :=
  c6_partial_file_resolution.1 envC6 "c" 0 wC6 ["A", "B", "missing"] reqC6 rfl rfl

/-! ## C8: topic policy differs between Assignment and Material -/

/-- C8: for an Assignment (with files present, a resolvable due date, and the
submission directory resolvable), an unresolvable topic is the fatal
`no_topic` assertion; for a Material, an unresolved topic is tolerated and the
request is issued with an absent topic field. -/
theorem c8_topic_policy :
    (∀ (env : Env) (cid : String) (pub : Int) (w : WorkInfo) (dd : Int)
        (sid : String),
      w.kind = "assignment" → truthyList w.files = true →
      w.get_due_date pub = some dd → env.find_file "TestDir" = some sid →
      gc_find_topic env cid (some w.topic) = none →
      process_work env cid pub w = Except.error Fatal.no_topic)
    ∧ (∀ (env : Env) (cid : String) (pub : Int) (w : WorkInfo),
      w.kind = "material" → truthyList w.files = true →
      gc_find_topic env cid (some w.topic) = none →
      ∃ req : GReq, process_work env cid pub w = Except.ok req ∧
        req.topicField = none) := by
  constructor
  · intro env cid pub w dd sid hk ht hd hs htp
    unfold process_work
    rw [hk, if_pos (by decide), if_pos ht]
    simp only [hd, gc_create_assignment, hs, htp]
  · intro env cid pub w hk ht htp
    refine ⟨GReq.material cid w.title w.description
      (resolveFiles env (w.files.getD [])) pub
      (gc_find_topic env cid (some w.topic)), ?_, ?_⟩
    · unfold process_work
      rw [hk, if_neg (by decide), if_pos (by decide), if_pos ht]
      rfl
    · exact htp

/-- Environment for the C8 assignment part: submission dir resolves, no topic
resolves. -/
def envC8a : Env := ⟨fun _ => none, fun _ => some "sid", fun _ _ => none⟩

/-- Concrete assignment with files and a due offset. -/
def wC8a : WorkInfo :=
  ⟨"assignment", ⟨0, 0⟩, "t", "hw8", none, none, some ["A"], some ⟨0, 2⟩,
    none, none⟩

/-- Environment for the C8 material part: nothing resolves. -/
def envC8b : Env := ⟨fun _ => none, fun _ => none, fun _ _ => none⟩

/-- Concrete material item. -/
def wC8b : WorkInfo :=
  ⟨"material", ⟨0, 0⟩, "t", "m8", none, none, some ["A"], none, none, none⟩

/-- C8 witness: both halves applied to concrete items. -/
theorem c8_witness :
    process_work envC8a "c" 0 wC8a = Except.error Fatal.no_topic ∧
      (∃ req : GReq, process_work envC8b "c" 0 wC8b = Except.ok req ∧
        req.topicField = none) :=
  ⟨c8_topic_policy.1 envC8a "c" 0 wC8a 2 "sid" rfl rfl rfl rfl rfl,
   c8_topic_policy.2 envC8b "c" 0 wC8b rfl rfl rfl⟩

/-! ## C9: normalization is idempotent -/

/-- Re-normalizing an already-normalized offset field is the identity. -/
theorem map_delta_norm (o : Option RawDelta) :
    ((o.map normDelta).map RawDelta.delta).map normDelta = o.map normDelta := by
  cases o <;> rfl

/-- A parsed date field re-normalizes to itself, whatever the parser does. -/
theorem normDate_dateToRaw (p : String → Option Int) (d : Option Int) :
    normDate p (dateToRaw d) = some d := by
  cases d <;> rfl

/-- C9: normalization is idempotent — a `WorkInfo` produced by `post_init`,
fed back through `post_init` (as `__post_init__` would see its mutated
fields), is returned unchanged: parsed dates stay equal, typed offsets stay
equal, the record is structurally identical. -/
theorem c9_normalize_idempotent (p : String → Option Int) (r : RawWorkInfo)
    (w : WorkInfo) (h : r.post_init p = some w) :
    (WorkInfo.toRaw w).post_init p = some w := by
  unfold RawWorkInfo.post_init at h ⊢
  by_cases hk : r.kind = "material" ∨ r.kind = "assignment"
  · rw [if_pos hk] at h
    cases hpd : normDate p r.publish_date with
    | none =>
      simp only [hpd] at h
      exact (Option.noConfusion h)
    | some pd =>
      cases hdd : normDate p r.due_date with
      | none =>
        simp only [hpd, hdd] at h
        exact (Option.noConfusion h)
      | some dd =>
        simp only [hpd, hdd, Option.some.injEq] at h
        subst h
        simp only [WorkInfo.toRaw, normDate_dateToRaw, map_delta_norm]
        rw [if_pos hk]
        rfl
  · rw [if_neg hk] at h
    exact (Option.noConfusion h)

/-- Parser for the C9 witness: 2025-06-01 parses to day 152. -/
def pC9 : String → Option Int := fun s => if s = "2025-06-01" then some 152 else none

/-- Concrete raw item with a string date and dict offsets. -/
def rC9 : RawWorkInfo :=
  ⟨"material", RawDelta.dict (some 1) none, "t", "w9",
    RawDate.str "2025-06-01", none, some ["A"],
    some (RawDelta.dict none (some 2)), RawDate.absent, none⟩

/-- The normalized form of `rC9`. -/
def wC9 : WorkInfo :=
  ⟨"material", ⟨1, 0⟩, "t", "w9", some 152, none, some ["A"], some ⟨0, 2⟩,
    none, none⟩

/-- C9 witness: idempotence on a concrete normalization run. -/
theorem c9_witness :
    rC9.post_init pC9 = some wC9 ∧ (WorkInfo.toRaw wC9).post_init pC9 = some wC9 :=
  ⟨rfl, c9_normalize_idempotent pC9 rC9 wC9 rfl⟩
